import Mathlib

/-!
Verification of the cl12 OpenCL binding layer.

Shallow embedding of the binding's marshaling and callback-bridge logic.
Pointers are modelled by their numeric addresses (`Nat`), Go slices by a
list of elements together with the base address of their backing array,
and the native OpenCL runtime by explicit oracle parameters (the status
code it returns, and for info queries its documented two-call protocol).
Machine integers: Go `uintptr` values are modelled as `Nat`, the native
`cl_int` status as `Int`; none of the embedded code performs arithmetic
that can overflow, so no modular reduction is required.
-/

/-- Success status of the native layer (`CL_SUCCESS` in the OpenCL headers). -/
def CL_SUCCESS : Int := 0

/-- Modelled from the spec: `StatusError(code)` wraps a native status code as a
structured error value (the status-code-to-error mapping lives in a repository
file that is not under src/; the spec states every failing operation returns
this error built from the untruncated native status). -/
structure StatusError where
  code : Int
deriving DecidableEq, Repr

/-- Pointer size of the modelled 64-bit platform, in bytes (`unsafe.Sizeof(uintptr(0))`). -/
def ptrSize : Nat := 8

/-- Go slice: the elements and the base address of the backing array.
`&slice[0]` is the base address; element `i` of a slice of `w`-byte elements
lives at `base + i * w`. -/
structure Slice (α : Type) where
  data : List α
  base : Nat
deriving DecidableEq, Repr

/-- PlatformID references one of the available OpenCL platforms (a `uintptr`). -/
structure PlatformID where
  val : Nat
deriving DecidableEq, Repr

/-- DeviceID references an OpenCL device of the system (a `uintptr`). -/
structure DeviceID where
  val : Nat
deriving DecidableEq, Repr

/-- CommandQueue describes a sequence of events for OpenCL operations (a `uintptr`). -/
structure CommandQueue where
  val : Nat
deriving DecidableEq, Repr

/-- Kernel references a particular `__kernel` function (a `uintptr`). -/
structure Kernel where
  val : Nat
deriving DecidableEq, Repr

/-- Sampler describes how color information from an image is sampled (a `uintptr`). -/
structure Sampler where
  val : Nat
deriving DecidableEq, Repr

/-- MemObject represents a reference counted region of global memory (a `uintptr`). -/
structure MemObject where
  val : Nat
deriving DecidableEq, Repr

/-- Event represents the completion state of one enqueued command (a `uintptr`). -/
structure Event where
  val : Nat
deriving DecidableEq, Repr

/-- Uppercase hexadecimal digit for a value below 16, as produced by Go's
`fmt` package for the `%X` verb. -/
def hexDigit (n : Nat) : Char :=
  if n < 10 then Char.ofNat (48 + n) else Char.ofNat (55 + n)

/-- Uppercase hexadecimal digit sequence of `n`, most significant first;
empty for `0`. Models the digit production of Go's `fmt` `%X` verb. -/
def hexChars : Nat → List Char
  | 0 => []
  | n + 1 => hexChars ((n + 1) / 16) ++ [hexDigit ((n + 1) % 16)]
decreasing_by exact Nat.div_lt_self (Nat.succ_pos n) (by norm_num)

/-- Rendering of `n` in uppercase hexadecimal, as Go's `fmt.Sprintf` produces
for the `%X` verb: no leading zeros, and the single digit `0` for zero. -/
def toHexUpper (n : Nat) : String :=
  if n = 0 then "0" else String.mk (hexChars n)

/-- String provides a readable presentation of the platform identifier
(`fmt.Sprintf("0x%X", uintptr(id))`). -/
def PlatformID.String (id : PlatformID) : String :=
  "0x" ++ toHexUpper id.val

/-- String provides a readable presentation of the device identifier. -/
def DeviceID.String (id : DeviceID) : String :=
  "0x" ++ toHexUpper id.val

/-- String provides a readable presentation of the command-queue identifier. -/
def CommandQueue.String (cq : CommandQueue) : String :=
  "0x" ++ toHexUpper cq.val

/-- String provides a readable presentation of the kernel identifier. -/
def Kernel.String (kernel : Kernel) : String :=
  "0x" ++ toHexUpper kernel.val

/-- String provides a readable presentation of the sampler identifier. -/
def Sampler.String (sampler : Sampler) : String :=
  "0x" ++ toHexUpper sampler.val

/-- String provides a readable presentation of the memory identifier. -/
def MemObject.String (mem : MemObject) : String :=
  "0x" ++ toHexUpper mem.val

/-- Numeric value of an uppercase hexadecimal digit character (inverse of `hexDigit`). -/
def hexVal (c : Char) : Nat :=
  if c.toNat ≥ 65 then c.toNat - 55 else c.toNat - 48

/-- Value denoted by a list of uppercase hexadecimal digit characters, most
significant first. -/
def fromHexDigits (l : List Char) : Nat :=
  l.foldl (fun acc c => acc * 16 + hexVal c) 0

/-- Whether a character is one of the sixteen uppercase hexadecimal digits. -/
def isHexDigitUpper (c : Char) : Bool :=
  ("0123456789ABCDEF".toList).contains c

/-- Modelled from the spec: the process-wide user-data registry (the registry
source file is not under src/; the spec requires "a unique integer key mapped
to an arbitrary host-side payload" stored "in a process-wide concurrent-safe
registry"). Modelled as an association list from token to payload together
with the next fresh token; the address-stable token pointer handed to the
native side is modelled by the token's numeric value. -/
structure Registry (α : Type) where
  entries : List (Nat × α)
  next : Nat
deriving DecidableEq, Repr

/-- Well-formedness of a registry: the token keys are pairwise distinct,
as holds for a Go map (the registry is a map guarded by a lock). -/
def Registry.WF (r : Registry α) : Prop :=
  (r.entries.map Prod.fst).Nodup

/-- Payload currently registered for a token, if any (models indexing the
registry map by the token). -/
def Registry.lookup (r : Registry α) (tok : Nat) : Option α :=
  (r.entries.find? (fun e => e.1 == tok)).map Prod.snd

/-- Registry with the entry of the given token removed (models deleting the
token's key from the registry map). -/
def Registry.remove (r : Registry α) (tok : Nat) : Registry α :=
  { r with entries := r.entries.eraseP (fun e => e.1 == tok) }

/-- UserData is the reference to one registered token: the numeric value of
the address-stable pointer passed to the native side as opaque context. -/
structure UserData where
  tok : Nat
deriving DecidableEq, Repr

/-- Modelled from the spec: `userDataFor(payload)` allocates a unique token,
stores `token -> payload` in the registry, and returns the token reference
(the registering source file is not under src/). -/
def userDataFor (r : Registry α) (payload : α) : UserData × Registry α :=
  (⟨r.next⟩, ⟨(r.next, payload) :: r.entries, r.next + 1⟩)

/-- Modelled from the spec: `UserData.Delete()` removes the token's entry from
the registry. -/
def deleteUserData (r : Registry α) (userData : UserData) : Registry α :=
  r.remove userData.tok

/-- Trampoline for memory-object destructor callbacks, from the source
(`cl12GoMemObjectDestructorCallback`): look the token up in the registry
(`userDataFrom` + `Value()`), delete the registry entry (`Delete()`), and only
then invoke the host payload. The result carries the registry as it stands at
the moment the payload is invoked, together with the payload handed to the
invocation; `none` models the token being absent (the Go code would fail its
type assertion on a missing payload). -/
def cl12GoMemObjectDestructorCallback (r : Registry α) (userData : UserData) :
    Option (Registry α × α) :=
  match r.lookup userData.tok with
  | some callback => some (r.remove userData.tok, callback)
  | none => none

/-- Trampoline for native-kernel execution, from the source
(`cl12GoKernelNativeCallback`): read the token from the first pointer-sized
word of the flat argument buffer, look it up, delete the registry entry, and
only then invoke the payload on the buffer address just past the token slot.
The flat buffer is modelled as the list of its pointer-sized words; the result
carries the registry at invocation time, the payload, and the slot region the
payload is invoked on. -/
def cl12GoKernelNativeCallback (r : Registry α) (args : List Nat) :
    Option (Registry α × α × List Nat) :=
  match args with
  | [] => none
  | tok :: slotWords =>
    match r.lookup tok with
    | some callback => some (r.remove tok, callback, slotWords)
    | none => none

/-- SetMemObjectDestructorCallback registers a destructor callback with a
memory object, from the source: allocate a user-data token for the callback,
invoke the native registration (whose status the `nativeStatus` oracle
supplies), and on a non-success status delete the token again before
returning the mapped error. -/
def SetMemObjectDestructorCallback (r : Registry α) (mem : MemObject)
    (callback : α) (nativeStatus : Int) : Registry α × Option StatusError :=
  let (callbackUserData, r1) := userDataFor r callback
  let _nativeArgs := (mem.val, callbackUserData.tok)
  if nativeStatus ≠ CL_SUCCESS then
    (deleteUserData r1 callbackUserData, some ⟨nativeStatus⟩)
  else
    (r1, none)

/-- WorkDimension describes the parameters within one dimension of a work group. -/
structure WorkDimension where
  GlobalOffset : Nat
  GlobalSize : Nat
  LocalSize : Nat
deriving DecidableEq, Repr

/-- Go runtime panic raised by the embedded code. -/
inductive GoPanic where
  | indexOutOfRange
deriving DecidableEq, Repr

/-- Arguments handed to the native `clEnqueueNDRangeKernel` call. -/
structure NDRangeCall where
  commandQueue : Nat
  kernel : Nat
  workDim : Nat
  globalWorkOffsets : List Nat
  globalWorkSizes : List Nat
  localWorkSizes : List Nat
  waitListCount : Nat
  waitListPtr : Option Nat
deriving DecidableEq, Repr

/-- EnqueueNDRangeKernel enqueues a command to execute a kernel on a device,
from the source: the wait-list pointer is null unless the wait-list is
non-empty, the three work arrays are copied out of `workDimensions`, and the
native call takes the address of element 0 of each work array — which panics
with an index-out-of-range error when `workDimensions` is empty, before the
native call is reached. `nativeStatus` is the status the native call returns. -/
def EnqueueNDRangeKernel (commandQueue : CommandQueue) (kernel : Kernel)
    (workDimensions : List WorkDimension) (waitList : Slice Event)
    (nativeStatus : Int) : Except GoPanic (NDRangeCall × Option StatusError) :=
  let rawWaitList : Option Nat :=
    if waitList.data.length > 0 then some waitList.base else none
  let globalWorkOffsets := workDimensions.map (·.GlobalOffset)
  let globalWorkSizes := workDimensions.map (·.GlobalSize)
  let localWorkSizes := workDimensions.map (·.LocalSize)
  if workDimensions.length = 0 then
    .error .indexOutOfRange
  else
    let call : NDRangeCall :=
      { commandQueue := commandQueue.val
        kernel := kernel.val
        workDim := workDimensions.length
        globalWorkOffsets := globalWorkOffsets
        globalWorkSizes := globalWorkSizes
        localWorkSizes := localWorkSizes
        waitListCount := waitList.data.length
        waitListPtr := rawWaitList }
    if nativeStatus ≠ CL_SUCCESS then .ok (call, some ⟨nativeStatus⟩)
    else .ok (call, none)

/-- Arguments handed to the native `clEnqueueTask` call. -/
structure TaskCall where
  commandQueue : Nat
  kernel : Nat
  waitListCount : Nat
  waitListPtr : Option Nat
deriving DecidableEq, Repr

/-- EnqueueTask enqueues a command to execute a kernel with a single
work-item, from the source. -/
def EnqueueTask (commandQueue : CommandQueue) (kernel : Kernel)
    (waitList : Slice Event) (nativeStatus : Int) :
    TaskCall × Option StatusError :=
  let rawWaitList : Option Nat :=
    if waitList.data.length > 0 then some waitList.base else none
  let call : TaskCall :=
    { commandQueue := commandQueue.val
      kernel := kernel.val
      waitListCount := waitList.data.length
      waitListPtr := rawWaitList }
  if nativeStatus ≠ CL_SUCCESS then (call, some ⟨nativeStatus⟩)
  else (call, none)

/-- Arguments handed to the native `clEnqueueUnmapMemObject` call. -/
structure UnmapCall where
  commandQueue : Nat
  mem : Nat
  mappedPtr : Nat
  waitListCount : Nat
  waitListPtr : Option Nat
deriving DecidableEq, Repr

/-- EnqueueUnmapMemObject enqueues a command to unmap a previously mapped
region of a memory object, from the source. -/
def EnqueueUnmapMemObject (commandQueue : CommandQueue) (mem : MemObject)
    (mappedPtr : Nat) (waitList : Slice Event) (nativeStatus : Int) :
    UnmapCall × Option StatusError :=
  let rawWaitList : Option Nat :=
    if waitList.data.length > 0 then some waitList.base else none
  let call : UnmapCall :=
    { commandQueue := commandQueue.val
      mem := mem.val
      mappedPtr := mappedPtr
      waitListCount := waitList.data.length
      waitListPtr := rawWaitList }
  if nativeStatus ≠ CL_SUCCESS then (call, some ⟨nativeStatus⟩)
  else (call, none)

/-- Arguments handed to the native `clEnqueueMigrateMemObjects` call. -/
structure MigrateCall where
  commandQueue : Nat
  numMemObjects : Nat
  memObjectsPtr : Option Nat
  migrationFlags : Nat
  waitListCount : Nat
  waitListPtr : Option Nat
deriving DecidableEq, Repr

/-- EnqueueMigrateMemObjects enqueues a command to indicate which device a set
of memory objects should be associated with, from the source: both the
memory-object pointer and the wait-list pointer are null unless their slice is
non-empty. -/
def EnqueueMigrateMemObjects (commandQueue : CommandQueue)
    (memObjects : Slice MemObject) (migrationFlags : Nat)
    (waitList : Slice Event) (nativeStatus : Int) :
    MigrateCall × Option StatusError :=
  let rawMemObjects : Option Nat :=
    if memObjects.data.length > 0 then some memObjects.base else none
  let rawWaitList : Option Nat :=
    if waitList.data.length > 0 then some waitList.base else none
  let call : MigrateCall :=
    { commandQueue := commandQueue.val
      numMemObjects := memObjects.data.length
      memObjectsPtr := rawMemObjects
      migrationFlags := migrationFlags
      waitListCount := waitList.data.length
      waitListPtr := rawWaitList }
  if nativeStatus ≠ CL_SUCCESS then (call, some ⟨nativeStatus⟩)
  else (call, none)

/-- Payload registered by EnqueueNativeKernel: from the slot region of the
flat argument buffer it reconstructs the memory-object pointers before the
host callback runs on them. -/
def KernelPayload : Type := List Nat → List Nat

/-- Closure registered by EnqueueNativeKernel, from the source: starting at
the argument base pointer it hands the trampoline, walk `n` consecutive
pointer-sized words and collect them in order (`n` is the number of memory
objects captured at registration). Reading past the region yields 0,
standing in for the undefined behavior Go would exhibit. -/
def nativeKernelClosure (n : Nat) : KernelPayload :=
  fun slotWords => (List.range n).map (fun i => slotWords.getD i 0)

/-- Arguments handed to the native `cl12EnqueueNativeKernel` helper, which
forwards them to `clEnqueueNativeKernel` together with the fixed C trampoline. -/
structure NativeKernelCall where
  commandQueue : Nat
  argsWords : List Nat
  argsBase : Nat
  argsSize : Nat
  numMemObjects : Nat
  memListPtr : Option Nat
  argsMemLocs : List Nat
  waitListCount : Nat
  waitListPtr : Option Nat

/-- EnqueueNativeKernel enqueues a command to execute a native Go function,
from the source: register the slot-walking closure under a fresh token, build
the flat argument buffer `rawArgs` holding the token pointer in word 0 and one
zeroed placeholder word per memory object, point `rawArgsMemLocs[i]` at
`&rawArgs[1+i]`, call the native layer, and on a non-success status delete the
token before returning the mapped error. `argsBase` is the address of the
`rawArgs` backing array. -/
def EnqueueNativeKernel (r : Registry KernelPayload)
    (commandQueue : CommandQueue) (memObjects : Slice MemObject)
    (waitList : Slice Event) (argsBase : Nat) (nativeStatus : Int) :
    Registry KernelPayload × Option StatusError × NativeKernelCall :=
  let (callbackUserData, r1) :=
    userDataFor r (nativeKernelClosure memObjects.data.length)
  let rawWaitList : Option Nat :=
    if waitList.data.length > 0 then some waitList.base else none
  let rawArgs : List Nat :=
    callbackUserData.tok :: List.replicate memObjects.data.length 0
  let rawMemObjectsPtr : Option Nat :=
    if memObjects.data.length > 0 then some memObjects.base else none
  let rawArgsMemLocs : List Nat :=
    (List.range memObjects.data.length).map (fun i => argsBase + (1 + i) * ptrSize)
  let call : NativeKernelCall :=
    { commandQueue := commandQueue.val
      argsWords := rawArgs
      argsBase := argsBase
      argsSize := rawArgs.length * ptrSize
      numMemObjects := memObjects.data.length
      memListPtr := rawMemObjectsPtr
      argsMemLocs := rawArgsMemLocs
      waitListCount := waitList.data.length
      waitListPtr := rawWaitList }
  if nativeStatus ≠ CL_SUCCESS then
    (deleteUserData r1 callbackUserData, some ⟨nativeStatus⟩, call)
  else
    (r1, none, call)

/-- Flush issues all previously queued commands of a command-queue to its
device, from the source: the `nativeStatus` oracle is what `clFlush` returns
for this queue; a non-success status is returned as `StatusError(status)`. -/
def Flush (commandQueue : CommandQueue) (nativeStatus : Int) :
    Option StatusError :=
  let _nativeArgs := commandQueue.val
  if nativeStatus ≠ CL_SUCCESS then some ⟨nativeStatus⟩ else none

/-- Finish blocks until all previously queued commands of a command-queue have
completed, from the source. -/
def Finish (commandQueue : CommandQueue) (nativeStatus : Int) :
    Option StatusError :=
  let _nativeArgs := commandQueue.val
  if nativeStatus ≠ CL_SUCCESS then some ⟨nativeStatus⟩ else none

/-- RetainKernel increments the kernel reference count, from the source. -/
def RetainKernel (kernel : Kernel) (nativeStatus : Int) :
    Option StatusError :=
  let _nativeArgs := kernel.val
  if nativeStatus ≠ CL_SUCCESS then some ⟨nativeStatus⟩ else none

/-- ReleaseKernel decrements the kernel reference count, from the source. -/
def ReleaseKernel (kernel : Kernel) (nativeStatus : Int) :
    Option StatusError :=
  let _nativeArgs := kernel.val
  if nativeStatus ≠ CL_SUCCESS then some ⟨nativeStatus⟩ else none

/-- RetainMemObject increments the memory object reference count, from the source. -/
def RetainMemObject (mem : MemObject) (nativeStatus : Int) :
    Option StatusError :=
  let _nativeArgs := mem.val
  if nativeStatus ≠ CL_SUCCESS then some ⟨nativeStatus⟩ else none

/-- ReleaseMemObject decrements the memory object reference count, from the source. -/
def ReleaseMemObject (mem : MemObject) (nativeStatus : Int) :
    Option StatusError :=
  let _nativeArgs := mem.val
  if nativeStatus ≠ CL_SUCCESS then some ⟨nativeStatus⟩ else none

/-- Behavior of the two native `clGetPlatformIDs` calls made by PlatformIDs:
the status of the counting call, the platform count it reports, the status of
the fetching call, and the identifiers the fetching call writes. -/
structure PlatformIDsOracle where
  probeStatus : Int
  count : Nat
  fetchStatus : Int
  ids : List PlatformID
deriving DecidableEq, Repr

/-- PlatformIDs returns the list of available platforms, from the source:
probe the count first, return early on a zero count, then fetch the
identifiers; a non-success status of either native call is returned as
`StatusError(status)`. -/
def PlatformIDs (native : PlatformIDsOracle) :
    Except StatusError (List PlatformID) :=
  if native.probeStatus ≠ CL_SUCCESS then .error ⟨native.probeStatus⟩
  else if native.count = 0 then .ok []
  else if native.fetchStatus ≠ CL_SUCCESS then .error ⟨native.fetchStatus⟩
  else .ok (native.ids.take native.count)

/-- Arguments a binding info query passes to its native `clGet*Info` call:
the handle, the numeric parameter name, the declared buffer size, and whether
the value pointer is null. -/
structure InfoNativeCall where
  handle : Nat
  paramName : Nat
  paramSize : Nat
  valueIsNull : Bool
deriving DecidableEq, Repr

/-- Behavior of a native info query: from the arguments it receives, the
status it returns and the size it writes through its size-return pointer. -/
def InfoOracle : Type := InfoNativeCall → Int × Nat

/-- Modelled from the spec: the two-call protocol every native `clGet*Info`
query follows (the native side is outside the repository). A query whose
required size is `S` reports `S` on a pure size probe (null value pointer),
succeeds reporting `S` when given a buffer of at least `S` bytes, and fails
with a non-success status — writing no value and reporting size 0 — when
given a non-null buffer smaller than `S`. -/
def specInfoNative (S : Nat) (errCode : Int) : InfoOracle :=
  fun call =>
    if call.valueIsNull then (CL_SUCCESS, S)
    else if S ≤ call.paramSize then (CL_SUCCESS, S)
    else (errCode, 0)

/-- ContextInfoName identifies properties of a context, queried with
ContextInfo() (declared in a repository file that is not under src/; its
declaration is referenced by the SamplerInfo signature in the source). -/
structure ContextInfoName where
  val : Nat
deriving DecidableEq, Repr

/-- PlatformInfoName identifies properties of a platform, from the source. -/
structure PlatformInfoName where
  val : Nat
deriving DecidableEq, Repr

/-- DeviceInfoName identifies properties of a device, from the source. -/
structure DeviceInfoName where
  val : Nat
deriving DecidableEq, Repr

/-- KernelInfoName identifies properties of a kernel, from the source. -/
structure KernelInfoName where
  val : Nat
deriving DecidableEq, Repr

/-- SamplerInfoName identifies properties of a sampler, from the source. -/
structure SamplerInfoName where
  val : Nat
deriving DecidableEq, Repr

/-- MemObjectInfoName identifies properties of a memory object, from the source. -/
structure MemObjectInfoName where
  val : Nat
deriving DecidableEq, Repr

/-- CommandQueueInfoName identifies properties of a command-queue, from the source. -/
structure CommandQueueInfoName where
  val : Nat
deriving DecidableEq, Repr

/-- SamplerReferenceCountInfo returns the sampler reference count
(`CL_SAMPLER_REFERENCE_COUNT` of the native headers). -/
def SamplerReferenceCountInfo : SamplerInfoName := ⟨0x1150⟩

/-- SamplerContextInfo returns the context specified when the sampler was
created (`CL_SAMPLER_CONTEXT` of the native headers). -/
def SamplerContextInfo : SamplerInfoName := ⟨0x1151⟩

/-- SamplerNormalizedCoordsInfo returns the normalized coords value of the
sampler (`CL_SAMPLER_NORMALIZED_COORDS` of the native headers). -/
def SamplerNormalizedCoordsInfo : SamplerInfoName := ⟨0x1152⟩

/-- SamplerAddressingModeInfo returns the addressing mode of the sampler
(`CL_SAMPLER_ADDRESSING_MODE` of the native headers). -/
def SamplerAddressingModeInfo : SamplerInfoName := ⟨0x1153⟩

/-- SamplerFilterModeInfo returns the filter mode of the sampler
(`CL_SAMPLER_FILTER_MODE` of the native headers). -/
def SamplerFilterModeInfo : SamplerInfoName := ⟨0x1154⟩

/-- PlatformInfo queries information about an OpenCL platform, from the
source: forward the arguments to the native call and return either the
reported required size, or size 0 together with the mapped error. The second
and third components are the error result and the arguments the native call
received. -/
def PlatformInfo (native : InfoOracle) (id : PlatformID)
    (paramName : PlatformInfoName) (paramSize : Nat) (valueIsNull : Bool) :
    Nat × Option StatusError × InfoNativeCall :=
  let call : InfoNativeCall := ⟨id.val, paramName.val, paramSize, valueIsNull⟩
  let (status, sizeReturn) := native call
  if status ≠ CL_SUCCESS then (0, some ⟨status⟩, call)
  else (sizeReturn, none, call)

/-- DeviceInfo queries information about an OpenCL device, from the source. -/
def DeviceInfo (native : InfoOracle) (id : DeviceID)
    (paramName : DeviceInfoName) (paramSize : Nat) (valueIsNull : Bool) :
    Nat × Option StatusError × InfoNativeCall :=
  let call : InfoNativeCall := ⟨id.val, paramName.val, paramSize, valueIsNull⟩
  let (status, sizeReturn) := native call
  if status ≠ CL_SUCCESS then (0, some ⟨status⟩, call)
  else (sizeReturn, none, call)

/-- KernelInfo returns information about a kernel object, from the source. -/
def KernelInfo (native : InfoOracle) (kernel : Kernel)
    (paramName : KernelInfoName) (paramSize : Nat) (valueIsNull : Bool) :
    Nat × Option StatusError × InfoNativeCall :=
  let call : InfoNativeCall := ⟨kernel.val, paramName.val, paramSize, valueIsNull⟩
  let (status, sizeReturn) := native call
  if status ≠ CL_SUCCESS then (0, some ⟨status⟩, call)
  else (sizeReturn, none, call)

/-- SamplerInfo queries information about a sampler, from the source. Note the
declared type of `paramName`: the source declares it as `ContextInfoName`, and
converts it to the native `cl_sampler_info` numerically unchanged. -/
def SamplerInfo (native : InfoOracle) (sampler : Sampler)
    (paramName : ContextInfoName) (paramSize : Nat) (valueIsNull : Bool) :
    Nat × Option StatusError × InfoNativeCall :=
  let call : InfoNativeCall := ⟨sampler.val, paramName.val, paramSize, valueIsNull⟩
  let (status, sizeReturn) := native call
  if status ≠ CL_SUCCESS then (0, some ⟨status⟩, call)
  else (sizeReturn, none, call)

/-- MemObjectInfo queries information about a memory object, from the source. -/
def MemObjectInfo (native : InfoOracle) (mem : MemObject)
    (paramName : MemObjectInfoName) (paramSize : Nat) (valueIsNull : Bool) :
    Nat × Option StatusError × InfoNativeCall :=
  let call : InfoNativeCall := ⟨mem.val, paramName.val, paramSize, valueIsNull⟩
  let (status, sizeReturn) := native call
  if status ≠ CL_SUCCESS then (0, some ⟨status⟩, call)
  else (sizeReturn, none, call)

/-- CommandQueueInfo queries information about a command-queue, from the source. -/
def CommandQueueInfo (native : InfoOracle) (commandQueue : CommandQueue)
    (paramName : CommandQueueInfoName) (paramSize : Nat) (valueIsNull : Bool) :
    Nat × Option StatusError × InfoNativeCall :=
  let call : InfoNativeCall := ⟨commandQueue.val, paramName.val, paramSize, valueIsNull⟩
  let (status, sizeReturn) := native call
  if status ≠ CL_SUCCESS then (0, some ⟨status⟩, call)
  else (sizeReturn, none, call)

/-- Kinds of info-parameter-name types declared by the binding; used to state
which of these distinct Go types a signature names. -/
inductive InfoNameKind where
  | platformInfo
  | deviceInfo
  | kernelInfo
  | samplerInfo
  | memObjectInfo
  | commandQueueInfo
  | contextInfo
deriving DecidableEq, Repr

/-- Kind of the type the source's SamplerInfo signature declares for its
`paramName` parameter: the source declares `paramName ContextInfoName`. -/
def samplerInfoParamNameKind : InfoNameKind := .contextInfo

/-- Kind of the type the sampler-info constants (SamplerReferenceCountInfo,
SamplerContextInfo, ...) are declared with in the source: `SamplerInfoName`. -/
def samplerInfoConstantsKind : InfoNameKind := .samplerInfo

/-- Size and alignment of one struct field on the modelled 64-bit platform. -/
structure FieldLayout where
  size : Nat
  align : Nat
deriving DecidableEq, Repr

/-- Smallest multiple of `align` that is at least `off`. -/
def alignUp (off align : Nat) : Nat :=
  ((off + align - 1) / align) * align

/-- Byte size of a struct with the given fields, laid out in declaration
order with each field aligned to its alignment and the total padded to the
strictest field alignment. Go and C use this layout for the plain-data structs
modelled here, so the same calculator serves both sides. -/
def structSize (fields : List FieldLayout) : Nat :=
  alignUp
    (fields.foldl (fun off f => alignUp off f.align + f.size) 0)
    (fields.foldl (fun m f => max m f.align) 1)

/-- Modelled from the spec: fields of the Go value struct `ImageFormat`
(declared in a repository file not under src/): two 32-bit enumeration fields,
`ChannelOrder` and `ChannelDataType`. -/
def imageFormatFields : List FieldLayout :=
  [⟨4, 4⟩, ⟨4, 4⟩]

/-- Modelled from the spec: fields of the native `cl_image_format` struct:
`cl_channel_order` and `cl_channel_type`, both 32-bit. -/
def clImageFormatFields : List FieldLayout :=
  [⟨4, 4⟩, ⟨4, 4⟩]

/-- Modelled from the spec: fields of the Go value struct `ImageDesc`
(declared in a repository file not under src/): the 32-bit image type, six
pointer-sized extents and pitches, two 32-bit counts, and the pointer-sized
buffer handle. -/
def imageDescFields : List FieldLayout :=
  [⟨4, 4⟩, ⟨8, 8⟩, ⟨8, 8⟩, ⟨8, 8⟩, ⟨8, 8⟩, ⟨8, 8⟩, ⟨8, 8⟩, ⟨4, 4⟩, ⟨4, 4⟩, ⟨8, 8⟩]

/-- Modelled from the spec: fields of the native `cl_image_desc` struct:
`cl_mem_object_type`, six `size_t` fields, two `cl_uint` fields, and the
`cl_mem` buffer pointer. -/
def clImageDescFields : List FieldLayout :=
  [⟨4, 4⟩, ⟨8, 8⟩, ⟨8, 8⟩, ⟨8, 8⟩, ⟨8, 8⟩, ⟨8, 8⟩, ⟨8, 8⟩, ⟨4, 4⟩, ⟨4, 4⟩, ⟨8, 8⟩]

/-- Modelled from the spec: fields of the Go value struct `BufferRegion`
(declared in a repository file not under src/): pointer-sized origin and size. -/
def bufferRegionFields : List FieldLayout :=
  [⟨8, 8⟩, ⟨8, 8⟩]

/-- Modelled from the spec: fields of the native `cl_buffer_region` struct:
`size_t` origin and `size_t` size. -/
def clBufferRegionFields : List FieldLayout :=
  [⟨8, 8⟩, ⟨8, 8⟩]

/-- ImageFormatByteSize is the declared byte-size constant for image formats:
the size of the native `cl_image_format` struct. -/
def ImageFormatByteSize : Nat := structSize clImageFormatFields

/-- ImageDescByteSize is the declared byte-size constant for image
descriptors: the size of the native `cl_image_desc` struct. -/
def ImageDescByteSize : Nat := structSize clImageDescFields

/-- BufferRegionByteSize is the declared byte-size constant for buffer
regions: the size of the native `cl_buffer_region` struct. -/
def BufferRegionByteSize : Nat := structSize clBufferRegionFields

/-- In-memory size of the Go struct `ImageFormat` (`unsafe.Sizeof(ImageFormat{})`). -/
def sizeofImageFormat : Nat := structSize imageFormatFields

/-- In-memory size of the Go struct `ImageDesc` (`unsafe.Sizeof(ImageDesc{})`). -/
def sizeofImageDesc : Nat := structSize imageDescFields

/-- In-memory size of the Go struct `BufferRegion` (`unsafe.Sizeof(BufferRegion{})`). -/
def sizeofBufferRegion : Nat := structSize bufferRegionFields

/-- Statement of the wait-list marshaling invariant for one native enqueue
call: an empty wait-list is passed as count 0 together with a null pointer, a
non-empty wait-list as its length together with the address of its first
element, and a non-null pointer never comes with count 0. -/
def waitListArgOk (waitList : Slice Event) (count : Nat) (ptr : Option Nat) : Prop :=
  (waitList.data = [] → count = 0 ∧ ptr = none) ∧
  (waitList.data ≠ [] → count = waitList.data.length ∧ ptr = some waitList.base) ∧
  (ptr ≠ none → count ≠ 0)

theorem find?_eraseP_eq_none {α : Type} (l : List (Nat × α)) (tok : Nat)
    (h : (l.map Prod.fst).Nodup) :
    (l.eraseP (fun e => e.1 == tok)).find? (fun e => e.1 == tok) = none := by
  induction l with
  | nil => rfl
  | cons a l ih =>
    rw [List.map_cons, List.nodup_cons] at h
    by_cases ha : a.1 = tok
    · rw [List.eraseP_cons_of_pos (by simp [ha])]
      rw [List.find?_eq_none]
      intro x hx hpx
      apply h.1
      have hx1 : x.1 = tok := by simpa using hpx
      rw [ha, ← hx1]
      exact List.mem_map_of_mem Prod.fst hx
    · rw [List.eraseP_cons_of_neg (by simp [ha])]
      rw [List.find?_cons_of_neg _ (by simp [ha])]
      exact ih h.2

theorem Registry.lookup_remove_self {α : Type} (r : Registry α) (tok : Nat)
    (h : r.WF) : (r.remove tok).lookup tok = none := by
  simp [Registry.lookup, Registry.remove, find?_eraseP_eq_none r.entries tok h]

theorem nativeKernelClosure_eq_self (n : Nat) (vs : List Nat)
    (h : vs.length = n) : nativeKernelClosure n vs = vs := by
  subst h
  apply List.ext_getElem
  · simp [nativeKernelClosure]
  · intro i h1 h2
    simp [nativeKernelClosure, List.getD_eq_getElem?_getD, List.getElem?_eq_getElem h2]

theorem hexVal_hexDigit (m : Nat) (h : m < 16) : hexVal (hexDigit m) = m := by
  interval_cases m <;> decide

theorem isHexDigitUpper_hexDigit (m : Nat) (h : m < 16) :
    isHexDigitUpper (hexDigit m) = true := by
  interval_cases m <;> decide

theorem fromHexDigits_append_singleton (l : List Char) (c : Char) :
    fromHexDigits (l ++ [c]) = fromHexDigits l * 16 + hexVal c := by
  simp [fromHexDigits, List.foldl_append]

theorem fromHexDigits_hexChars (n : Nat) : fromHexDigits (hexChars n) = n := by
  induction n using Nat.strong_induction_on with
  | _ n ih =>
    match n with
    | 0 => simp [hexChars, fromHexDigits]
    | m + 1 =>
      rw [hexChars, fromHexDigits_append_singleton]
      rw [ih ((m + 1) / 16) (Nat.div_lt_self (Nat.succ_pos m) (by norm_num))]
      rw [hexVal_hexDigit _ (Nat.mod_lt _ (by norm_num))]
      omega

theorem mem_hexChars_isHexDigitUpper (n : Nat) :
    ∀ c ∈ hexChars n, isHexDigitUpper c = true := by
  induction n using Nat.strong_induction_on with
  | _ n ih =>
    match n with
    | 0 => intro c hc; simp [hexChars] at hc
    | m + 1 =>
      intro c hc
      rw [hexChars] at hc
      rcases List.mem_append.mp hc with h1 | h2
      · exact ih ((m + 1) / 16) (Nat.div_lt_self (Nat.succ_pos m) (by norm_num)) c h1
      · have hc2 : c = hexDigit ((m + 1) % 16) := by simpa using h2
        rw [hc2]
        exact isHexDigitUpper_hexDigit _ (Nat.mod_lt _ (by norm_num))

theorem toHexUpper_spec (n : Nat) :
    (∀ c ∈ (toHexUpper n).toList, isHexDigitUpper c = true) ∧
    fromHexDigits (toHexUpper n).toList = n ∧ (toHexUpper n).toList ≠ [] := by
  by_cases h : n = 0
  · subst h
    refine ⟨?_, by decide, by decide⟩
    intro c hc
    simp [toHexUpper] at hc
    simp [hc]
    decide
  · have htl : (toHexUpper n).toList = hexChars n := by
      simp [toHexUpper, h, String.toList]
    refine ⟨?_, ?_, ?_⟩
    · rw [htl]; exact mem_hexChars_isHexDigitUpper n
    · rw [htl]; exact fromHexDigits_hexChars n
    · rw [htl]
      intro he
      apply h
      have hv := fromHexDigits_hexChars n
      rw [he] at hv
      simpa [fromHexDigits] using hv.symm

/-- C1: for every user-data token the only lifecycle transitions are
Registered to Delivered-and-removed and Registered to Rolled-back-and-removed:
each callback trampoline deletes the registry entry before invoking the host
payload (the registry handed to the invocation no longer holds the token), a
trampoline never fires for an unregistered token, re-delivery of a consumed
token finds nothing, and a rollback likewise removes the entry — so a token's
payload is consumed at most once. -/
theorem userData_token_single_delivery :
    (∀ (α : Type) (r : Registry α) (ud : UserData) (p : α), r.WF →
      r.lookup ud.tok = some p →
        ∃ r', cl12GoMemObjectDestructorCallback r ud = some (r', p) ∧
          r'.lookup ud.tok = none ∧
          cl12GoMemObjectDestructorCallback r' ud = none) ∧
    (∀ (α : Type) (r : Registry α) (ud : UserData),
      r.lookup ud.tok = none → cl12GoMemObjectDestructorCallback r ud = none) ∧
    (∀ (α : Type) (r : Registry α) (tok : Nat) (slotWords : List Nat) (p : α),
      r.WF → r.lookup tok = some p →
        ∃ r', cl12GoKernelNativeCallback r (tok :: slotWords) = some (r', p, slotWords) ∧
          r'.lookup tok = none ∧
          cl12GoKernelNativeCallback r' (tok :: slotWords) = none) ∧
    (∀ (α : Type) (r : Registry α) (tok : Nat) (slotWords : List Nat),
      r.lookup tok = none → cl12GoKernelNativeCallback r (tok :: slotWords) = none) ∧
    (∀ (α : Type) (r : Registry α) (ud : UserData), r.WF →
      (deleteUserData r ud).lookup ud.tok = none) := by
  refine ⟨?_, ?_, ?_, ?_, ?_⟩
  · intro α r ud p hwf hl
    have hafter := Registry.lookup_remove_self r ud.tok hwf
    exact ⟨r.remove ud.tok,
      by simp [cl12GoMemObjectDestructorCallback, hl],
      hafter,
      by simp [cl12GoMemObjectDestructorCallback, hafter]⟩
  · intro α r ud hl
    simp [cl12GoMemObjectDestructorCallback, hl]
  · intro α r tok slotWords p hwf hl
    have hafter := Registry.lookup_remove_self r tok hwf
    exact ⟨r.remove tok,
      by simp [cl12GoKernelNativeCallback, hl],
      hafter,
      by simp [cl12GoKernelNativeCallback, hafter]⟩
  · intro α r tok slotWords hl
    simp [cl12GoKernelNativeCallback, hl]
  · intro α r ud hwf
    exact Registry.lookup_remove_self r ud.tok hwf

/-- Witness for C1 at a concrete registry holding token 0 with payload 7. -/
theorem userData_token_single_delivery_witness :
    ∃ r' : Registry Nat,
      cl12GoMemObjectDestructorCallback (⟨[(0, 7)], 1⟩ : Registry Nat) ⟨0⟩ = some (r', 7) ∧
      r'.lookup 0 = none ∧
      cl12GoMemObjectDestructorCallback r' ⟨0⟩ = none :=
  userData_token_single_delivery.1 Nat ⟨[(0, 7)], 1⟩ ⟨0⟩ 7 (by simp [Registry.WF]) (by decide)

/-- C2: both registering operations delete their freshly allocated token again
when the native registration or enqueue call returns a non-success status, so
on the error path the registry mapping is exactly what it was before the call
(the fresh-token counter of the model is the only thing that advances), and
the mapped error is returned. -/
theorem register_error_path_rollback :
    (∀ (α : Type) (r : Registry α) (mem : MemObject) (callback : α) (s : Int),
      s ≠ CL_SUCCESS →
        (SetMemObjectDestructorCallback r mem callback s).1.entries = r.entries ∧
        (SetMemObjectDestructorCallback r mem callback s).2 = some ⟨s⟩) ∧
    (∀ (r : Registry KernelPayload) (q : CommandQueue) (memObjects : Slice MemObject)
      (wl : Slice Event) (argsBase : Nat) (s : Int), s ≠ CL_SUCCESS →
        (EnqueueNativeKernel r q memObjects wl argsBase s).1.entries = r.entries ∧
        (EnqueueNativeKernel r q memObjects wl argsBase s).2.1 = some ⟨s⟩) := by
  constructor
  · intro α r mem callback s hs
    simp [SetMemObjectDestructorCallback, userDataFor, deleteUserData,
      Registry.remove, List.eraseP_cons, hs]
  · intro r q memObjects wl argsBase s hs
    simp [EnqueueNativeKernel, userDataFor, deleteUserData,
      Registry.remove, List.eraseP_cons, hs]

/-- Witness for C2 at a concrete registry and failing status -1. -/
theorem register_error_path_rollback_witness :
    (SetMemObjectDestructorCallback (⟨[(0, 7)], 1⟩ : Registry Nat) ⟨3⟩ 9 (-1)).1.entries
        = [(0, 7)] ∧
      (SetMemObjectDestructorCallback (⟨[(0, 7)], 1⟩ : Registry Nat) ⟨3⟩ 9 (-1)).2
        = some ⟨-1⟩ :=
  register_error_path_rollback.1 Nat ⟨[(0, 7)], 1⟩ ⟨3⟩ 9 (-1) (by decide)

/-- C3: every enqueue operation taking a wait-list passes count 0 with a null
event-list pointer when the list is empty, and the list length with the
address of its first element otherwise; a non-null pointer with zero count is
never passed. For EnqueueNDRangeKernel the property holds on its panic-free
path, which requires a non-empty dimension list. -/
theorem wait_list_marshaling :
    (∀ (q : CommandQueue) (k : Kernel) (dims : List WorkDimension)
      (wl : Slice Event) (s : Int), dims ≠ [] →
        ∃ call err, EnqueueNDRangeKernel q k dims wl s = .ok (call, err) ∧
          waitListArgOk wl call.waitListCount call.waitListPtr) ∧
    (∀ (q : CommandQueue) (k : Kernel) (wl : Slice Event) (s : Int),
      waitListArgOk wl (EnqueueTask q k wl s).1.waitListCount
        (EnqueueTask q k wl s).1.waitListPtr) ∧
    (∀ (r : Registry KernelPayload) (q : CommandQueue) (memObjects : Slice MemObject)
      (wl : Slice Event) (argsBase : Nat) (s : Int),
      waitListArgOk wl (EnqueueNativeKernel r q memObjects wl argsBase s).2.2.waitListCount
        (EnqueueNativeKernel r q memObjects wl argsBase s).2.2.waitListPtr) ∧
    (∀ (q : CommandQueue) (mem : MemObject) (mappedPtr : Nat)
      (wl : Slice Event) (s : Int),
      waitListArgOk wl (EnqueueUnmapMemObject q mem mappedPtr wl s).1.waitListCount
        (EnqueueUnmapMemObject q mem mappedPtr wl s).1.waitListPtr) ∧
    (∀ (q : CommandQueue) (memObjects : Slice MemObject) (flags : Nat)
      (wl : Slice Event) (s : Int),
      waitListArgOk wl (EnqueueMigrateMemObjects q memObjects flags wl s).1.waitListCount
        (EnqueueMigrateMemObjects q memObjects flags wl s).1.waitListPtr) := by
  have hok : ∀ (wl : Slice Event),
      waitListArgOk wl wl.data.length
        (if wl.data.length > 0 then some wl.base else none) := by
    intro wl
    refine ⟨?_, ?_, ?_⟩
    · intro he; simp [he]
    · intro he
      have : wl.data.length > 0 := List.length_pos.mpr he
      simp [this]
    · intro hp
      by_cases hl : wl.data.length > 0
      · omega
      · simp [hl] at hp
  refine ⟨?_, ?_, ?_, ?_, ?_⟩
  · intro q k dims wl s hd
    have hlen : ¬ dims.length = 0 := by simpa using hd
    have heq : EnqueueNDRangeKernel q k dims wl s =
        .ok (⟨q.val, k.val, dims.length, dims.map (·.GlobalOffset),
          dims.map (·.GlobalSize), dims.map (·.LocalSize), wl.data.length,
          if wl.data.length > 0 then some wl.base else none⟩,
          if s ≠ CL_SUCCESS then some ⟨s⟩ else none) := by
      by_cases hs : s ≠ CL_SUCCESS <;> simp [EnqueueNDRangeKernel, hlen, hs]
    exact ⟨_, _, heq, hok wl⟩
  · intro q k wl s
    by_cases hs : s ≠ CL_SUCCESS <;> simpa [EnqueueTask, hs] using hok wl
  · intro r q memObjects wl argsBase s
    by_cases hs : s ≠ CL_SUCCESS <;>
      simpa [EnqueueNativeKernel, userDataFor, hs] using hok wl
  · intro q mem mappedPtr wl s
    by_cases hs : s ≠ CL_SUCCESS <;> simpa [EnqueueUnmapMemObject, hs] using hok wl
  · intro q memObjects flags wl s
    by_cases hs : s ≠ CL_SUCCESS <;> simpa [EnqueueMigrateMemObjects, hs] using hok wl

/-- Witness for C3: a non-empty one-dimension launch with an empty wait-list,
and a task with a one-event wait-list based at address 64. -/
theorem wait_list_marshaling_witness :
    (∃ call err, EnqueueNDRangeKernel ⟨1⟩ ⟨2⟩ [⟨0, 1, 1⟩] ⟨[], 0⟩ 0 = .ok (call, err) ∧
      waitListArgOk ⟨[], 0⟩ call.waitListCount call.waitListPtr) ∧
    waitListArgOk ⟨[⟨7⟩], 64⟩ (EnqueueTask ⟨1⟩ ⟨2⟩ ⟨[⟨7⟩], 64⟩ 0).1.waitListCount
      (EnqueueTask ⟨1⟩ ⟨2⟩ ⟨[⟨7⟩], 64⟩ 0).1.waitListPtr :=
  ⟨wait_list_marshaling.1 ⟨1⟩ ⟨2⟩ [⟨0, 1, 1⟩] ⟨[], 0⟩ 0 (by decide),
    wait_list_marshaling.2.1 ⟨1⟩ ⟨2⟩ ⟨[⟨7⟩], 64⟩ 0⟩

/-- C4: EnqueueNativeKernel with n memory objects builds a flat argument
buffer holding the freshly allocated token pointer at word 0 and n zeroed
placeholder words at offsets 1..n, declares its size as (n+1) pointer widths,
points the slot-address list at those n words in order, and — when the native
call succeeded, so the token stayed registered — the trampoline applied to the
patched buffer removes the token and reconstructs exactly the n patched
pointers, in order, as the argument of the host callback. -/
theorem native_kernel_arg_marshaling :
    ∀ (r : Registry KernelPayload) (q : CommandQueue) (memObjects : Slice MemObject)
      (wl : Slice Event) (argsBase : Nat) (s : Int),
      ∃ tok payload,
        (EnqueueNativeKernel r q memObjects wl argsBase s).2.2.argsWords =
          tok :: List.replicate memObjects.data.length 0 ∧
        (EnqueueNativeKernel r q memObjects wl argsBase s).2.2.argsWords.length =
          memObjects.data.length + 1 ∧
        (EnqueueNativeKernel r q memObjects wl argsBase s).2.2.argsSize =
          (memObjects.data.length + 1) * ptrSize ∧
        (EnqueueNativeKernel r q memObjects wl argsBase s).2.2.argsMemLocs =
          (List.range memObjects.data.length).map
            (fun i => argsBase + (1 + i) * ptrSize) ∧
        (s = CL_SUCCESS →
          ∀ vs : List Nat, vs.length = memObjects.data.length →
            cl12GoKernelNativeCallback
                (EnqueueNativeKernel r q memObjects wl argsBase s).1 (tok :: vs) =
              some ((EnqueueNativeKernel r q memObjects wl argsBase s).1.remove tok,
                payload, vs) ∧
            payload vs = vs) := by
  intro r q memObjects wl argsBase s
  refine ⟨r.next, nativeKernelClosure memObjects.data.length, ?_, ?_, ?_, ?_, ?_⟩
  · by_cases hs : s ≠ CL_SUCCESS <;> simp [EnqueueNativeKernel, userDataFor, hs]
  · by_cases hs : s ≠ CL_SUCCESS <;> simp [EnqueueNativeKernel, userDataFor, hs]
  · by_cases hs : s ≠ CL_SUCCESS <;> simp [EnqueueNativeKernel, userDataFor, hs]
  · by_cases hs : s ≠ CL_SUCCESS <;> simp [EnqueueNativeKernel, userDataFor, hs]
  · intro hs vs hlen
    have hreg : (EnqueueNativeKernel r q memObjects wl argsBase s).1 =
        ⟨(r.next, nativeKernelClosure memObjects.data.length) :: r.entries,
          r.next + 1⟩ := by
      simp [EnqueueNativeKernel, userDataFor, hs]
    constructor
    · rw [hreg]
      simp [cl12GoKernelNativeCallback, Registry.lookup, List.find?]
    · exact nativeKernelClosure_eq_self _ vs hlen

/-- Witness for C4 with two memory objects, argument buffer at address 800,
and patched pointers 111 and 222. -/
theorem native_kernel_arg_marshaling_witness :
    ∃ tok payload,
      (EnqueueNativeKernel (⟨[], 0⟩ : Registry KernelPayload) ⟨1⟩
          ⟨[⟨10⟩, ⟨11⟩], 32⟩ ⟨[], 0⟩ 800 0).2.2.argsWords = tok :: List.replicate 2 0 ∧
      (EnqueueNativeKernel (⟨[], 0⟩ : Registry KernelPayload) ⟨1⟩
          ⟨[⟨10⟩, ⟨11⟩], 32⟩ ⟨[], 0⟩ 800 0).2.2.argsWords.length = 2 + 1 ∧
      (EnqueueNativeKernel (⟨[], 0⟩ : Registry KernelPayload) ⟨1⟩
          ⟨[⟨10⟩, ⟨11⟩], 32⟩ ⟨[], 0⟩ 800 0).2.2.argsSize = (2 + 1) * ptrSize ∧
      (EnqueueNativeKernel (⟨[], 0⟩ : Registry KernelPayload) ⟨1⟩
          ⟨[⟨10⟩, ⟨11⟩], 32⟩ ⟨[], 0⟩ 800 0).2.2.argsMemLocs =
        (List.range 2).map (fun i => 800 + (1 + i) * ptrSize) ∧
      (cl12GoKernelNativeCallback
          (EnqueueNativeKernel (⟨[], 0⟩ : Registry KernelPayload) ⟨1⟩
            ⟨[⟨10⟩, ⟨11⟩], 32⟩ ⟨[], 0⟩ 800 0).1 (tok :: [111, 222]) =
        some ((EnqueueNativeKernel (⟨[], 0⟩ : Registry KernelPayload) ⟨1⟩
            ⟨[⟨10⟩, ⟨11⟩], 32⟩ ⟨[], 0⟩ 800 0).1.remove tok, payload, [111, 222]) ∧
        payload [111, 222] = [111, 222]) := by
  obtain ⟨tok, payload, h1, h2, h3, h4, h5⟩ :=
    native_kernel_arg_marshaling ⟨[], 0⟩ ⟨1⟩ ⟨[⟨10⟩, ⟨11⟩], 32⟩ ⟨[], 0⟩ 800 0
  exact ⟨tok, payload, h1, h2, h3, h4, h5 rfl [111, 222] rfl⟩

/-- C8: EnqueueNDRangeKernel called with an empty workDimensions list panics
with a runtime index-out-of-range error (taking the address of element 0 of a
zero-length work array) before the native call is reached, instead of
returning an error value; the panic-free path requires at least one work
dimension. -/
theorem ndrange_empty_dimensions_panic :
    (∀ (q : CommandQueue) (k : Kernel) (wl : Slice Event) (s : Int),
      EnqueueNDRangeKernel q k [] wl s = .error .indexOutOfRange) ∧
    (∀ (q : CommandQueue) (k : Kernel) (dims : List WorkDimension)
      (wl : Slice Event) (s : Int), dims ≠ [] →
        ∃ out, EnqueueNDRangeKernel q k dims wl s = .ok out) := by
  constructor
  · intro q k wl s
    rfl
  · intro q k dims wl s hd
    have hlen : ¬ dims.length = 0 := by simpa using hd
    have heq : EnqueueNDRangeKernel q k dims wl s =
        .ok (⟨q.val, k.val, dims.length, dims.map (·.GlobalOffset),
          dims.map (·.GlobalSize), dims.map (·.LocalSize), wl.data.length,
          if wl.data.length > 0 then some wl.base else none⟩,
          if s ≠ CL_SUCCESS then some ⟨s⟩ else none) := by
      by_cases hs : s ≠ CL_SUCCESS <;> simp [EnqueueNDRangeKernel, hlen, hs]
    exact ⟨_, heq⟩

/-- Witness for C8: the empty launch panics; a one-dimension launch does not. -/
theorem ndrange_empty_dimensions_panic_witness :
    EnqueueNDRangeKernel ⟨1⟩ ⟨2⟩ [] ⟨[], 0⟩ 0 = .error .indexOutOfRange ∧
    ∃ out, EnqueueNDRangeKernel ⟨1⟩ ⟨2⟩ [⟨0, 1, 1⟩] ⟨[], 0⟩ 0 = .ok out :=
  ⟨ndrange_empty_dimensions_panic.1 ⟨1⟩ ⟨2⟩ ⟨[], 0⟩ 0,
    ndrange_empty_dimensions_panic.2 ⟨1⟩ ⟨2⟩ [⟨0, 1, 1⟩] ⟨[], 0⟩ 0 (by decide)⟩

/-- C5: every wrapped operation returns no error exactly when the native
status is the success value, and otherwise returns exactly
`StatusError(status)` built from the untruncated native status; for the
two-call PlatformIDs, success means every consulted native status succeeded,
and the error names the failing call's status. -/
theorem status_error_propagation :
    (∀ (q : CommandQueue) (s : Int),
      (Flush q s = none ↔ s = CL_SUCCESS) ∧
      (s ≠ CL_SUCCESS → Flush q s = some ⟨s⟩)) ∧
    (∀ (q : CommandQueue) (s : Int),
      (Finish q s = none ↔ s = CL_SUCCESS) ∧
      (s ≠ CL_SUCCESS → Finish q s = some ⟨s⟩)) ∧
    (∀ (k : Kernel) (s : Int),
      (RetainKernel k s = none ↔ s = CL_SUCCESS) ∧
      (s ≠ CL_SUCCESS → RetainKernel k s = some ⟨s⟩)) ∧
    (∀ (k : Kernel) (s : Int),
      (ReleaseKernel k s = none ↔ s = CL_SUCCESS) ∧
      (s ≠ CL_SUCCESS → ReleaseKernel k s = some ⟨s⟩)) ∧
    (∀ (mem : MemObject) (s : Int),
      (RetainMemObject mem s = none ↔ s = CL_SUCCESS) ∧
      (s ≠ CL_SUCCESS → RetainMemObject mem s = some ⟨s⟩)) ∧
    (∀ (mem : MemObject) (s : Int),
      (ReleaseMemObject mem s = none ↔ s = CL_SUCCESS) ∧
      (s ≠ CL_SUCCESS → ReleaseMemObject mem s = some ⟨s⟩)) ∧
    (∀ native : PlatformIDsOracle,
      ((∃ ids, PlatformIDs native = .ok ids) ↔
        native.probeStatus = CL_SUCCESS ∧
          (native.count = 0 ∨ native.fetchStatus = CL_SUCCESS)) ∧
      (native.probeStatus ≠ CL_SUCCESS →
        PlatformIDs native = .error ⟨native.probeStatus⟩) ∧
      (native.probeStatus = CL_SUCCESS → native.count ≠ 0 →
        native.fetchStatus ≠ CL_SUCCESS →
          PlatformIDs native = .error ⟨native.fetchStatus⟩)) := by
  have hone : ∀ s : Int,
      ((if s ≠ CL_SUCCESS then some (⟨s⟩ : StatusError) else none) = none ↔
        s = CL_SUCCESS) ∧
      (s ≠ CL_SUCCESS →
        (if s ≠ CL_SUCCESS then some (⟨s⟩ : StatusError) else none) = some ⟨s⟩) := by
    intro s
    by_cases hs : s = CL_SUCCESS <;> simp [hs]
  refine ⟨fun q s => hone s, fun q s => hone s, fun k s => hone s, fun k s => hone s,
    fun mem s => hone s, fun mem s => hone s, ?_⟩
  intro native
  refine ⟨?_, ?_, ?_⟩
  · constructor
    · intro ⟨ids, hids⟩
      by_cases h1 : native.probeStatus = CL_SUCCESS
      · refine ⟨h1, ?_⟩
        by_cases h2 : native.count = 0
        · exact Or.inl h2
        · by_cases h3 : native.fetchStatus = CL_SUCCESS
          · exact Or.inr h3
          · simp [PlatformIDs, h1, h2, h3] at hids
      · simp [PlatformIDs, h1] at hids
    · intro ⟨h1, h23⟩
      rcases h23 with h2 | h3
      · exact ⟨[], by simp [PlatformIDs, h1, h2]⟩
      · by_cases h2 : native.count = 0
        · exact ⟨[], by simp [PlatformIDs, h1, h2]⟩
        · refine ⟨List.take native.count native.ids, ?_⟩
          simp [PlatformIDs, h1, h2, h3]
  · intro h1
    simp [PlatformIDs, h1]
  · intro h1 h2 h3
    simp [PlatformIDs, h1, h2, h3]

/-- Witness for C5 at status -30 and a probe-failing oracle. -/
theorem status_error_propagation_witness :
    Flush ⟨1⟩ (-30) = some ⟨-30⟩ ∧
    (Finish ⟨1⟩ 0 = none ↔ (0 : Int) = CL_SUCCESS) ∧
    PlatformIDs ⟨-32, 0, 0, []⟩ = .error ⟨-32⟩ :=
  ⟨(status_error_propagation.1 ⟨1⟩ (-30)).2 (by decide),
    (status_error_propagation.2.1 ⟨1⟩ 0).1,
    (status_error_propagation.2.2.2.2.2.2 ⟨-32, 0, 0, []⟩).2.1 (by decide)⟩

/-- C7: the declared byte-size constants for the image format, image
descriptor, and buffer region structs equal the in-memory sizes of the Go
struct types ImageFormat, ImageDesc, and BufferRegion on the modelled 64-bit
platform. -/
theorem struct_byte_sizes_match :
    ImageFormatByteSize = sizeofImageFormat ∧
    ImageDescByteSize = sizeofImageDesc ∧
    BufferRegionByteSize = sizeofBufferRegion := by
  decide

/-- C6: against the spec-modelled native two-call protocol with required size
S, every info query returns (S, no error) on a zero-size null-buffer probe,
returns (S, no error) when given a buffer of at least S bytes, and propagates
the native error with a returned size of 0 when given a non-zero buffer
smaller than S — never a truncated value. -/
theorem query_protocol (S : Nat) (errCode : Int) (he : errCode ≠ CL_SUCCESS) :
    (∀ (id : PlatformID) (pn : PlatformInfoName),
      ((PlatformInfo (specInfoNative S errCode) id pn 0 true).1 = S ∧
        (PlatformInfo (specInfoNative S errCode) id pn 0 true).2.1 = none) ∧
      (∀ sz, S ≤ sz →
        (PlatformInfo (specInfoNative S errCode) id pn sz false).1 = S ∧
        (PlatformInfo (specInfoNative S errCode) id pn sz false).2.1 = none) ∧
      (∀ sz, 0 < sz → sz < S →
        (PlatformInfo (specInfoNative S errCode) id pn sz false).1 = 0 ∧
        (PlatformInfo (specInfoNative S errCode) id pn sz false).2.1 =
          some ⟨errCode⟩)) ∧
    (∀ (id : DeviceID) (pn : DeviceInfoName),
      ((DeviceInfo (specInfoNative S errCode) id pn 0 true).1 = S ∧
        (DeviceInfo (specInfoNative S errCode) id pn 0 true).2.1 = none) ∧
      (∀ sz, S ≤ sz →
        (DeviceInfo (specInfoNative S errCode) id pn sz false).1 = S ∧
        (DeviceInfo (specInfoNative S errCode) id pn sz false).2.1 = none) ∧
      (∀ sz, 0 < sz → sz < S →
        (DeviceInfo (specInfoNative S errCode) id pn sz false).1 = 0 ∧
        (DeviceInfo (specInfoNative S errCode) id pn sz false).2.1 =
          some ⟨errCode⟩)) ∧
    (∀ (kernel : Kernel) (pn : KernelInfoName),
      ((KernelInfo (specInfoNative S errCode) kernel pn 0 true).1 = S ∧
        (KernelInfo (specInfoNative S errCode) kernel pn 0 true).2.1 = none) ∧
      (∀ sz, S ≤ sz →
        (KernelInfo (specInfoNative S errCode) kernel pn sz false).1 = S ∧
        (KernelInfo (specInfoNative S errCode) kernel pn sz false).2.1 = none) ∧
      (∀ sz, 0 < sz → sz < S →
        (KernelInfo (specInfoNative S errCode) kernel pn sz false).1 = 0 ∧
        (KernelInfo (specInfoNative S errCode) kernel pn sz false).2.1 =
          some ⟨errCode⟩)) ∧
    (∀ (sampler : Sampler) (pn : ContextInfoName),
      ((SamplerInfo (specInfoNative S errCode) sampler pn 0 true).1 = S ∧
        (SamplerInfo (specInfoNative S errCode) sampler pn 0 true).2.1 = none) ∧
      (∀ sz, S ≤ sz →
        (SamplerInfo (specInfoNative S errCode) sampler pn sz false).1 = S ∧
        (SamplerInfo (specInfoNative S errCode) sampler pn sz false).2.1 = none) ∧
      (∀ sz, 0 < sz → sz < S →
        (SamplerInfo (specInfoNative S errCode) sampler pn sz false).1 = 0 ∧
        (SamplerInfo (specInfoNative S errCode) sampler pn sz false).2.1 =
          some ⟨errCode⟩)) ∧
    (∀ (mem : MemObject) (pn : MemObjectInfoName),
      ((MemObjectInfo (specInfoNative S errCode) mem pn 0 true).1 = S ∧
        (MemObjectInfo (specInfoNative S errCode) mem pn 0 true).2.1 = none) ∧
      (∀ sz, S ≤ sz →
        (MemObjectInfo (specInfoNative S errCode) mem pn sz false).1 = S ∧
        (MemObjectInfo (specInfoNative S errCode) mem pn sz false).2.1 = none) ∧
      (∀ sz, 0 < sz → sz < S →
        (MemObjectInfo (specInfoNative S errCode) mem pn sz false).1 = 0 ∧
        (MemObjectInfo (specInfoNative S errCode) mem pn sz false).2.1 =
          some ⟨errCode⟩)) ∧
    (∀ (q : CommandQueue) (pn : CommandQueueInfoName),
      ((CommandQueueInfo (specInfoNative S errCode) q pn 0 true).1 = S ∧
        (CommandQueueInfo (specInfoNative S errCode) q pn 0 true).2.1 = none) ∧
      (∀ sz, S ≤ sz →
        (CommandQueueInfo (specInfoNative S errCode) q pn sz false).1 = S ∧
        (CommandQueueInfo (specInfoNative S errCode) q pn sz false).2.1 = none) ∧
      (∀ sz, 0 < sz → sz < S →
        (CommandQueueInfo (specInfoNative S errCode) q pn sz false).1 = 0 ∧
        (CommandQueueInfo (specInfoNative S errCode) q pn sz false).2.1 =
          some ⟨errCode⟩)) := by
  refine ⟨?_, ?_, ?_, ?_, ?_, ?_⟩ <;>
  exact fun h pn =>
    ⟨by simp [PlatformInfo, DeviceInfo, KernelInfo, SamplerInfo, MemObjectInfo,
        CommandQueueInfo, specInfoNative],
      fun sz hsz => by
        simp [PlatformInfo, DeviceInfo, KernelInfo, SamplerInfo, MemObjectInfo,
          CommandQueueInfo, specInfoNative, hsz],
      fun sz hpos hlt => by
        simp [PlatformInfo, DeviceInfo, KernelInfo, SamplerInfo, MemObjectInfo,
          CommandQueueInfo, specInfoNative, Nat.not_le.mpr hlt, he]⟩

/-- Witness for C6 with required size 24 and error code -30: probe with zero
size, fetch with a 24-byte buffer, and a too-small 8-byte buffer. -/
theorem query_protocol_witness :
    ((PlatformInfo (specInfoNative 24 (-30)) ⟨1⟩ ⟨0x0902⟩ 0 true).1 = 24 ∧
      (PlatformInfo (specInfoNative 24 (-30)) ⟨1⟩ ⟨0x0902⟩ 0 true).2.1 = none) ∧
    ((PlatformInfo (specInfoNative 24 (-30)) ⟨1⟩ ⟨0x0902⟩ 24 false).1 = 24 ∧
      (PlatformInfo (specInfoNative 24 (-30)) ⟨1⟩ ⟨0x0902⟩ 24 false).2.1 = none) ∧
    ((PlatformInfo (specInfoNative 24 (-30)) ⟨1⟩ ⟨0x0902⟩ 8 false).1 = 0 ∧
      (PlatformInfo (specInfoNative 24 (-30)) ⟨1⟩ ⟨0x0902⟩ 8 false).2.1 =
        some ⟨-30⟩) :=
  ⟨(query_protocol 24 (-30) (by decide)).1 ⟨1⟩ ⟨0x0902⟩ |>.1,
    (query_protocol 24 (-30) (by decide)).1 ⟨1⟩ ⟨0x0902⟩ |>.2.1 24 (by decide),
    (query_protocol 24 (-30) (by decide)).1 ⟨1⟩ ⟨0x0902⟩ |>.2.2 8 (by decide) (by decide)⟩

/-- C9: for every handle type, the String method returns "0x" followed by the
uppercase hexadecimal rendering of the handle's numeric value (every character
an uppercase hexadecimal digit, and decoding the digits yields the value
back), and two handles are equal exactly when their numeric values are equal. -/
theorem handle_string_and_equality :
    (∀ id : PlatformID, ∃ s : String, PlatformID.String id = "0x" ++ s ∧
      s.toList ≠ [] ∧ (∀ c ∈ s.toList, isHexDigitUpper c = true) ∧
      fromHexDigits s.toList = id.val) ∧
    (∀ a b : PlatformID, a = b ↔ a.val = b.val) ∧
    (∀ id : DeviceID, ∃ s : String, DeviceID.String id = "0x" ++ s ∧
      s.toList ≠ [] ∧ (∀ c ∈ s.toList, isHexDigitUpper c = true) ∧
      fromHexDigits s.toList = id.val) ∧
    (∀ a b : DeviceID, a = b ↔ a.val = b.val) ∧
    (∀ cq : CommandQueue, ∃ s : String, CommandQueue.String cq = "0x" ++ s ∧
      s.toList ≠ [] ∧ (∀ c ∈ s.toList, isHexDigitUpper c = true) ∧
      fromHexDigits s.toList = cq.val) ∧
    (∀ a b : CommandQueue, a = b ↔ a.val = b.val) ∧
    (∀ kernel : Kernel, ∃ s : String, Kernel.String kernel = "0x" ++ s ∧
      s.toList ≠ [] ∧ (∀ c ∈ s.toList, isHexDigitUpper c = true) ∧
      fromHexDigits s.toList = kernel.val) ∧
    (∀ a b : Kernel, a = b ↔ a.val = b.val) ∧
    (∀ sampler : Sampler, ∃ s : String, Sampler.String sampler = "0x" ++ s ∧
      s.toList ≠ [] ∧ (∀ c ∈ s.toList, isHexDigitUpper c = true) ∧
      fromHexDigits s.toList = sampler.val) ∧
    (∀ a b : Sampler, a = b ↔ a.val = b.val) ∧
    (∀ mem : MemObject, ∃ s : String, MemObject.String mem = "0x" ++ s ∧
      s.toList ≠ [] ∧ (∀ c ∈ s.toList, isHexDigitUpper c = true) ∧
      fromHexDigits s.toList = mem.val) ∧
    (∀ a b : MemObject, a = b ↔ a.val = b.val) := by
  have hhex : ∀ n : Nat, (toHexUpper n).toList ≠ [] ∧
      (∀ c ∈ (toHexUpper n).toList, isHexDigitUpper c = true) ∧
      fromHexDigits (toHexUpper n).toList = n := by
    intro n
    exact ⟨(toHexUpper_spec n).2.2, (toHexUpper_spec n).1, (toHexUpper_spec n).2.1⟩
  refine ⟨?_, ?_, ?_, ?_, ?_, ?_, ?_, ?_, ?_, ?_, ?_, ?_⟩
  · exact fun id => ⟨toHexUpper id.val, rfl, hhex id.val⟩
  · intro a b; cases a; cases b; simp
  · exact fun id => ⟨toHexUpper id.val, rfl, hhex id.val⟩
  · intro a b; cases a; cases b; simp
  · exact fun cq => ⟨toHexUpper cq.val, rfl, hhex cq.val⟩
  · intro a b; cases a; cases b; simp
  · exact fun kernel => ⟨toHexUpper kernel.val, rfl, hhex kernel.val⟩
  · intro a b; cases a; cases b; simp
  · exact fun sampler => ⟨toHexUpper sampler.val, rfl, hhex sampler.val⟩
  · intro a b; cases a; cases b; simp
  · exact fun mem => ⟨toHexUpper mem.val, rfl, hhex mem.val⟩
  · intro a b; cases a; cases b; simp

/-- Witness for C9 at the kernel handle 255. -/
theorem handle_string_and_equality_witness :
    (∃ s : String, Kernel.String ⟨255⟩ = "0x" ++ s ∧
      s.toList ≠ [] ∧ (∀ c ∈ s.toList, isHexDigitUpper c = true) ∧
      fromHexDigits s.toList = 255) ∧
    ((⟨255⟩ : Kernel) = ⟨255⟩ ↔ (255 : Nat) = 255) :=
  ⟨handle_string_and_equality.2.2.2.2.2.2.1 ⟨255⟩,
    handle_string_and_equality.2.2.2.2.2.2.2.1 ⟨255⟩ ⟨255⟩⟩

/-- C10: the source's SamplerInfo signature declares its paramName parameter
with the context-info name type rather than the sampler-info name type its own
constants carry — the two are distinct declared types, so a SamplerInfoName
value cannot be passed without an explicit conversion — while the parameter's
numeric value is forwarded unchanged to the native sampler-info query. -/
theorem sampler_info_param_name_type :
    samplerInfoParamNameKind = InfoNameKind.contextInfo ∧
    samplerInfoConstantsKind = InfoNameKind.samplerInfo ∧
    samplerInfoParamNameKind ≠ samplerInfoConstantsKind ∧
    SamplerReferenceCountInfo = ⟨0x1150⟩ ∧ SamplerContextInfo = ⟨0x1151⟩ ∧
    (∀ (native : InfoOracle) (sampler : Sampler) (paramName : ContextInfoName)
      (sz : Nat) (b : Bool),
      (SamplerInfo native sampler paramName sz b).2.2.paramName = paramName.val) := by
  refine ⟨rfl, rfl, by decide, rfl, rfl, ?_⟩
  intro native sampler paramName sz b
  rcases h : native ⟨sampler.val, paramName.val, sz, b⟩ with ⟨st, sr⟩
  by_cases hs : st ≠ CL_SUCCESS <;> simp [SamplerInfo, h, hs]
